import Mathlib

/-!
Shallow embedding of the `create-sf-user` repository (Python): a CSV batch
importer that creates Salesforce users through a small REST client.

Modelled source files:
  * `src/utils/salesforce_api_client.py` — `parse_json_body`, the
    `SalesforceRestApiClient` class (`__init__`, `send_request`, `get`,
    `post`, `patch`, `composite_request`);
  * `src/functions/create_users.py` — `create_users_from_csv`;
  * `src/main.py` — `main`.

Python dicts are modelled as insertion-ordered association lists with
last-write-wins update; the HTTP transport (`requests.request`) is an
oracle parameter; exceptions are modelled with `Except` / explicit
outcome types.
-/

namespace CreateSfUser

/-- Headers is the model of a Python `dict[str, str]`: an insertion-ordered
association list. -/
abbrev Headers := List (String × String)

/-- dictInsert models a single Python dict key write `d[k] = v`: an existing
key keeps its position and gets the new value, a new key is appended. -/
def dictInsert (d : Headers) (k v : String) : Headers :=
  if d.any (fun p => p.1 = k) then
    d.map (fun p => if p.1 = k then (k, v) else p)
  else
    d ++ [(k, v)]

/-- mergeDict models Python `\x7b**base, **extra\x7d` (and result-wise also
`base.update(extra)`): every pair of `extra` written into `base` in order. -/
def mergeDict (base extra : Headers) : Headers :=
  extra.foldl (fun d p => dictInsert d p.1 p.2) base

/-- dictGet models Python `d[k]`: `none` is a `KeyError`. -/
def dictGet (d : Headers) (k : String) : Option String :=
  List.lookup k d

/-- rowGetD models Python `d.get(k, default)`. -/
def rowGetD (d : Headers) (k default : String) : String :=
  (dictGet d k).getD default

/-- PyVal is a minimal model of the Python values that flow through
`json.dumps` / `response.json()` in this repository. -/
inductive PyVal where
  | vStr : String → PyVal
  | vInt : Int → PyVal
  | vDict : List (String × PyVal) → PyVal

mutual

/-- jsonDumps models Python `json.dumps` with its default separators
`", "` and `": "` (string escaping is not needed for the values this
repository serializes). -/
def jsonDumps : PyVal → String
  | PyVal.vStr s => "\"" ++ s ++ "\""
  | PyVal.vInt n => toString n
  | PyVal.vDict kvs => "\x7b" ++ jsonDumpsEntries kvs ++ "\x7d"

/-- jsonDumpsEntries serializes the entries of a dict, comma-separated. -/
def jsonDumpsEntries : List (String × PyVal) → String
  | [] => ""
  | [(k, v)] => "\"" ++ k ++ "\": " ++ jsonDumps v
  | (k, v) :: rest => "\"" ++ k ++ "\": " ++ jsonDumps v ++ ", " ++ jsonDumpsEntries rest

end

/-- HttpResponse models a `requests.Response`: its status code, the result
of `response.json()` (`none` when that call raises `JSONDecodeError`), and
`response.text`. -/
structure HttpResponse where
  status_code : Nat
  jsonBody : Option PyVal
  text : String

/-- errorResponse models the synthetic `requests.Response()` that
`send_request` builds on error: status code set to
`HTTP_500_INTERNAL_SERVER_ERROR`, no content. -/
def errorResponse : HttpResponse :=
  ⟨500, none, ""⟩

/-- parse_json_body models `parse_json_body(response)` from
`salesforce_api_client.py`: return `response.json()`, and on
`JSONDecodeError` return the fallback dict
`\x7b"message": "response.json() failed", "response": response.text\x7d`. -/
def parse_json_body (response : HttpResponse) : PyVal :=
  match response.jsonBody with
  | some v => v
  | none =>
      PyVal.vDict
        [("message", PyVal.vStr "response.json() failed"),
         ("response", PyVal.vStr response.text)]

/-- DEFAULT_TIMEOUT_SECONDS models the module constant (30.0 seconds). -/
def DEFAULT_TIMEOUT_SECONDS : Rat := 30

/-- RequestRecord models one invocation of `requests.request(...)`: the
keyword arguments it receives. -/
structure RequestRecord where
  method : String
  url : String
  headers : Headers
  timeout : Rat
  data : Option String
deriving DecidableEq

/-- TransportOutcome is the oracle answer for one `requests.request` call:
a completed HTTP exchange, a `RequestException` (network error, DNS
failure, timeout), or any other unexpected exception. -/
inductive TransportOutcome where
  | success : HttpResponse → TransportOutcome
  | requestException : String → TransportOutcome
  | otherException : String → TransportOutcome

/-- Transport is the HTTP-transport oracle. -/
abbrev Transport := RequestRecord → TransportOutcome

/-- Kwargs models the `**kwargs` a caller passes through `get`/`post`/
`patch` into `send_request` in this repository: possibly a `url=` and a
`data=` keyword. -/
structure Kwargs where
  url : Option String
  data : Option String
deriving DecidableEq

/-- Client models a constructed `SalesforceRestApiClient` instance: its
two attributes `self.url` and `self.base_headers`. -/
structure Client where
  url : String
  base_headers : Headers
deriving DecidableEq

/-- lstripSlash models Python `path.lstrip("/")`. -/
def lstripSlash (s : String) : String :=
  String.mk (s.toList.dropWhile (fun c => c = '/'))

/-- clientInit models `SalesforceRestApiClient.__init__(path,
additional_headers)`.  `baseUrl` is `settings.SF_API_BASE_URL`; `auth` is
the outcome of `init_client()` — either an authentication exception or the
session headers of the `Salesforce` instance.  On auth failure the
exception propagates out of the constructor. -/
def clientInit (baseUrl : String) (auth : Except String Headers)
    (path : String) (additional_headers : Option Headers) :
    Except String Client :=
  match auth with
  | Except.error e => Except.error e
  | Except.ok authHeaders =>
      let base := mergeDict
        [("Content-Type", "application/json"), ("Accept", "*/*")] authHeaders
      -- `if additional_headers:` — falsy for None and for an empty dict
      let base := match additional_headers with
        | some ah => if ah = [] then base else mergeDict base ah
        | none => base
      Except.ok ⟨baseUrl ++ "/" ++ lstripSlash path, base⟩

/-- builtRequest is the keyword-argument record `send_request` hands to
`requests.request` when `**kwargs` does not itself carry `url=`. -/
def builtRequest (c : Client) (method : String) (headers : Option Headers)
    (timeout : Rat) (kwargs : Kwargs) : RequestRecord :=
  ⟨method, c.url, mergeDict c.base_headers (headers.getD []), timeout, kwargs.data⟩

/-- Client.send_request models `send_request(method, headers, timeout,
**kwargs)`.  It returns the post-call client state (the method performs no
attribute assignment), the returned response, and the `requests.request`
invocation actually made (`none` when no HTTP call happened).

Control flow from the source: merge headers; call `requests.request` with
explicit `method=`, `url=self.url`, `headers=`, `timeout=` plus `**kwargs`
— when `kwargs` itself contains `url`, Python raises `TypeError` (duplicate
keyword argument) at this call, which the blanket `except Exception` turns
into the synthetic 500 response with no HTTP call made; otherwise
`raise_for_status()` raises `HTTPError` (a `RequestException`) exactly when
`400 <= status_code < 600`, and both `except` arms return the synthetic 500
response. -/
def Client.send_request (c : Client) (transport : Transport) (method : String)
    (headers : Option Headers) (timeout : Rat) (kwargs : Kwargs) :
    Client × HttpResponse × Option RequestRecord :=
  match kwargs.url with
  | some _ => (c, errorResponse, none)
  | none =>
      let req := builtRequest c method headers timeout kwargs
      match transport req with
      | TransportOutcome.success r =>
          if 400 ≤ r.status_code ∧ r.status_code < 600 then
            (c, errorResponse, some req)
          else
            (c, r, some req)
      | TransportOutcome.requestException _ => (c, errorResponse, some req)
      | TransportOutcome.otherException _ => (c, errorResponse, some req)

/-- Client.get models `get(**kwargs)`. -/
def Client.get (c : Client) (transport : Transport) (headers : Option Headers)
    (timeout : Rat) (kwargs : Kwargs) :
    Client × HttpResponse × Option RequestRecord :=
  c.send_request transport "GET" headers timeout kwargs

/-- Client.post models `post(**kwargs)`. -/
def Client.post (c : Client) (transport : Transport) (headers : Option Headers)
    (timeout : Rat) (kwargs : Kwargs) :
    Client × HttpResponse × Option RequestRecord :=
  c.send_request transport "POST" headers timeout kwargs

/-- Client.patch models `patch(**kwargs)`. -/
def Client.patch (c : Client) (transport : Transport) (headers : Option Headers)
    (timeout : Rat) (kwargs : Kwargs) :
    Client × HttpResponse × Option RequestRecord :=
  c.send_request transport "PATCH" headers timeout kwargs

/-- Client.composite_request models `composite_request(composite_data)`:
serialize the data with `json.dumps`, build the hardcoded v52.0 composite
URL from `settings.SF_API_BASE_URL`, and call `self.post(url=...,
data=..., headers=\x7b"Content-Length": str(len(request_data))\x7d)` —
passing `url` inside `**kwargs`. -/
def Client.composite_request (c : Client) (baseUrl : String)
    (transport : Transport) (composite_data : PyVal) :
    Client × HttpResponse × Option RequestRecord :=
  let request_data := jsonDumps composite_data
  let composite_url := baseUrl ++ "/services/data/v52.0/composite"
  c.post transport (some [("Content-Length", toString request_data.length)])
    DEFAULT_TIMEOUT_SECONDS ⟨some composite_url, some request_data⟩

/-- Row models one `csv.DictReader` row: a dict from column name to cell. -/
abbrev Row := Headers

/-- requiredColumns is the list of columns `create_users_from_csv` reads,
in the evaluation order of its dict literal. -/
def requiredColumns : List String :=
  ["FirstName", "LastName", "Email", "Username", "Alias", "TimeZoneSidKey",
   "LocaleSidKey", "EmailEncodingKey", "LanguageLocaleKey", "ProfileId"]

/-- buildRecordAux evaluates the `user_record` dict literal column by
column, left to right; the first missing key raises `KeyError`. -/
def buildRecordAux (row : Row) : List String → Except String Headers
  | [] => Except.ok []
  | k :: ks =>
      match dictGet row k with
      | none => Except.error ("KeyError: " ++ k)
      | some v =>
          match buildRecordAux row ks with
          | Except.error e => Except.error e
          | Except.ok rest => Except.ok ((k, v) :: rest)

/-- buildUserRecord models the `user_record = \x7b...\x7d` dict literal in
`create_users_from_csv`: all ten column reads `row["..."]`, in order. -/
def buildUserRecord (row : Row) : Except String Headers :=
  buildRecordAux row requiredColumns

/-- rowComplete decides whether a row carries every required column. -/
def rowComplete (row : Row) : Bool :=
  requiredColumns.all (fun k => (dictGet row k).isSome)

/-- recordJson is `json.dumps(user_record)` for a dict of CSV strings. -/
def recordJson (user_record : Headers) : String :=
  jsonDumps (PyVal.vDict (user_record.map (fun p => (p.1, PyVal.vStr p.2))))

/-- RowReport is what the importer prints for one row: the
"Successfully created user: \x7bUsername\x7d -> \x7bresult\x7d" line
(carrying the username and the response), or the
"Failed to create user: \x7busername-or-placeholder\x7d -> \x7berror\x7d"
line. -/
inductive RowReport where
  | success : String → HttpResponse → RowReport
  | failure : String → String → RowReport

/-- RowReport.isFailure is true exactly on the failure line. -/
def RowReport.isFailure : RowReport → Bool
  | RowReport.failure _ _ => true
  | RowReport.success _ _ => false

/-- processRows models the `for row in reader:` loop of
`create_users_from_csv`.  `transport` answers the n-th HTTP call of the
batch; the `Nat` argument counts the calls already made.  Each iteration:
build `user_record` (a missing column raises `KeyError`, caught by the
row-level `except`, printing the failure line with
`row.get('Username', 'No Username')`); otherwise `sf.post(data=
json.dumps(user_record))` — which never raises — and print the success
line with `row['Username']` and the returned response, whatever its
status. -/
def processRows (sf : Client) (transport : Nat → TransportOutcome) :
    Nat → List Row → List RowReport × List RequestRecord
  | _, [] => ([], [])
  | n, row :: rest =>
      match buildUserRecord row with
      | Except.error e =>
          let r := processRows sf transport n rest
          (RowReport.failure (rowGetD row "Username" "No Username") e :: r.1, r.2)
      | Except.ok user_record =>
          let out := sf.post (fun _ => transport n) none DEFAULT_TIMEOUT_SECONDS
            ⟨none, some (recordJson user_record)⟩
          let r := processRows sf transport (n + 1) rest
          (RowReport.success (rowGetD row "Username" "") out.2.1 :: r.1,
           out.2.2.toList ++ r.2)

/-- create_users_from_csv models the importer: construct the client with
`path="/services/data/v50.0/sobjects/User"` (an auth failure there
propagates, before any row is read), then process every row of the CSV.
The result carries the per-row report lines and every `requests.request`
invocation the batch made. -/
def create_users_from_csv (baseUrl : String) (auth : Except String Headers)
    (transport : Nat → TransportOutcome) (rows : List Row) :
    Except String (List RowReport) × List RequestRecord :=
  match clientInit baseUrl auth "/services/data/v50.0/sobjects/User" none with
  | Except.error e => (Except.error e, [])
  | Except.ok sf =>
      let r := processRows sf transport 0 rows
      (Except.ok r.1, r.2)

/-- transportResult is the response `send_request` hands back for one
completed transport outcome: the response itself below the
`raise_for_status` range, the synthetic 500 otherwise. -/
def transportResult (o : TransportOutcome) : HttpResponse :=
  match o with
  | TransportOutcome.success r =>
      if 400 ≤ r.status_code ∧ r.status_code < 600 then errorResponse else r
  | TransportOutcome.requestException _ => errorResponse
  | TransportOutcome.otherException _ => errorResponse

/-- expectedCreateRequest is the one `requests.request` invocation the
importer makes for a (complete) row: a POST of the serialized
`user_record` to the client's user endpoint with the client's headers and
the default timeout. -/
def expectedCreateRequest (sf : Client) (row : Row) : RequestRecord :=
  ⟨"POST", sf.url, sf.base_headers, DEFAULT_TIMEOUT_SECONDS,
   some (recordJson ((buildUserRecord row).toOption.getD []))⟩

/-- successReports is the report spine the importer produces on a batch of
complete rows: one success line per row, carrying the response of the
row's own (n-th, n+1-st, ...) HTTP call. -/
def successReports (transport : Nat → TransportOutcome) :
    Nat → List Row → List RowReport
  | _, [] => []
  | n, row :: rest =>
      RowReport.success (rowGetD row "Username" "") (transportResult (transport n)) ::
        successReports transport (n + 1) rest

/-- importClient is the client `create_users_from_csv` constructs when
authentication succeeds with headers `authHeaders`. -/
def importClient (baseUrl : String) (authHeaders : Headers) : Client :=
  ⟨baseUrl ++ "/" ++ lstripSlash "/services/data/v50.0/sobjects/User",
   mergeDict [("Content-Type", "application/json"), ("Accept", "*/*")] authHeaders⟩

/-- pyLower models `str.lower()` for the ASCII range (the only characters
compared against "yes"/"y"). -/
def pyLower (s : String) : String :=
  String.mk (s.toList.map Char.toLower)

/-- MainResult is the observable outcome of `main()`: the process exits
with a status code before the importer runs, or the importer is invoked
with the hardcoded CSV path. -/
inductive MainResult where
  | exited : Nat → MainResult
  | ranImporter : String → MainResult
deriving DecidableEq

/-- main models `main()` in `src/main.py`.  `env` is
`settings.Config.env` (the resolved environment name); `answer` is what
`input()` returns — it is only consulted when `env == "prod"`. -/
def main (env : String) (answer : String) : MainResult :=
  if env = "prod" then
    if pyLower answer = "yes" ∨ pyLower answer = "y" then
      MainResult.ranImporter "src/files/ユーザー作成シート.csv"
    else
      MainResult.exited 1
  else
    MainResult.ranImporter "src/files/ユーザー作成シート.csv"

/-! Concrete sample data used by counterexamples and witnesses. -/

/-- sampleBaseUrl is a sample `settings.SF_API_BASE_URL`. -/
def sampleBaseUrl : String := "https://example.my.salesforce.com"

/-- sampleAuth is a sample successful `init_client()` header set. -/
def sampleAuth : Headers := [("Authorization", "Bearer 00Dxx0000000001!token")]

/-- sampleRow1 is a CSV row carrying every required column. -/
def sampleRow1 : Row :=
  [("FirstName", "Taro"), ("LastName", "Yamada"),
   ("Email", "taro@example.com"), ("Username", "taro@example.com"),
   ("Alias", "taro"), ("TimeZoneSidKey", "Asia/Tokyo"),
   ("LocaleSidKey", "ja_JP"), ("EmailEncodingKey", "UTF-8"),
   ("LanguageLocaleKey", "ja"), ("ProfileId", "00e000000000001")]

/-- sampleRow2 is a second CSV row carrying every required column. -/
def sampleRow2 : Row :=
  [("FirstName", "Hanako"), ("LastName", "Suzuki"),
   ("Email", "hanako@example.com"), ("Username", "hanako@example.com"),
   ("Alias", "hana"), ("TimeZoneSidKey", "Asia/Tokyo"),
   ("LocaleSidKey", "ja_JP"), ("EmailEncodingKey", "UTF-8"),
   ("LanguageLocaleKey", "ja"), ("ProfileId", "00e000000000001")]

/-- sampleIncompleteRow is a CSV row missing `LastName` (and more) but
carrying a `Username`. -/
def sampleIncompleteRow : Row :=
  [("FirstName", "Ichiro"), ("Username", "ichiro@example.com")]

/-- okResponse is a sample 2xx API response. -/
def okResponse : HttpResponse :=
  ⟨201, some (PyVal.vDict [("id", PyVal.vStr "005xx000001X8zzAAC"),
                           ("success", PyVal.vStr "true")]), ""⟩

/-- badResponse is a sample 4xx API response. -/
def badResponse : HttpResponse :=
  ⟨400, some (PyVal.vDict [("message", PyVal.vStr "DUPLICATE_USERNAME")]), "dup"⟩

/-- notModifiedResponse is a sample 3xx (304) API response. -/
def notModifiedResponse : HttpResponse := ⟨304, none, ""⟩

/-- failFirstTransport answers the batch's first HTTP call with the 4xx
response and every later call with the 2xx response. -/
def failFirstTransport : Nat → TransportOutcome
  | 0 => TransportOutcome.success badResponse
  | _ + 1 => TransportOutcome.success okResponse

/-- okTransport answers every HTTP call with the 2xx response. -/
def okTransport : Nat → TransportOutcome :=
  fun _ => TransportOutcome.success okResponse

/-! Helper lemmas shared by the claim theorems. -/

/-- send_request with `url=` inside `**kwargs` duplicates the explicit
`url=self.url` keyword: `TypeError`, caught, synthetic 500, no HTTP call. -/
theorem send_request_url_in_kwargs (c : Client) (transport : Transport)
    (method : String) (headers : Option Headers) (timeout : Rat)
    (u : String) (d : Option String) :
    c.send_request transport method headers timeout ⟨some u, d⟩ =
      (c, errorResponse, none) := rfl

/-- send_request without a `url=` kwarg makes exactly one HTTP call, with
the built request record, and returns `transportResult` of its outcome. -/
theorem send_request_eq (c : Client) (transport : Transport) (method : String)
    (headers : Option Headers) (timeout : Rat) (d : Option String) :
    c.send_request transport method headers timeout ⟨none, d⟩ =
      (c, transportResult (transport (builtRequest c method headers timeout ⟨none, d⟩)),
       some (builtRequest c method headers timeout ⟨none, d⟩)) := by
  simp only [Client.send_request]
  cases htr : transport (builtRequest c method headers timeout ⟨none, d⟩) with
  | success r =>
      simp only [transportResult, htr]
      split <;> rfl
  | requestException s => simp [transportResult, htr]
  | otherException s => simp [transportResult, htr]

/-- send_request never changes the client's attributes. -/
theorem send_request_fst (c : Client) (transport : Transport) (method : String)
    (headers : Option Headers) (timeout : Rat) (kwargs : Kwargs) :
    (c.send_request transport method headers timeout kwargs).1 = c := by
  cases kwargs with
  | mk u d =>
      cases u with
      | none => rw [send_request_eq]
      | some v => rfl

/-- buildRecordAux fails with the `KeyError` of some column when one of
the columns it reads is missing from the row. -/
theorem buildRecordAux_error (row : Row) :
    ∀ cols : List String,
      cols.all (fun k => (dictGet row k).isSome) = false →
      ∃ e, buildRecordAux row cols = Except.error e := by
  intro cols
  induction cols with
  | nil => intro h; simp at h
  | cons k ks ih =>
      intro h
      cases hk : dictGet row k with
      | none => exact ⟨"KeyError: " ++ k, by simp [buildRecordAux, hk]⟩
      | some v =>
          rw [List.all_cons, hk] at h
          simp only [Option.isSome_some, Bool.true_and] at h
          obtain ⟨e, he⟩ := ih h
          exact ⟨e, by simp [buildRecordAux, hk, he]⟩

/-- buildRecordAux succeeds when every column it reads is present. -/
theorem buildRecordAux_ok (row : Row) :
    ∀ cols : List String,
      cols.all (fun k => (dictGet row k).isSome) = true →
      ∃ rec, buildRecordAux row cols = Except.ok rec := by
  intro cols
  induction cols with
  | nil => intro h; exact ⟨[], rfl⟩
  | cons k ks ih =>
      intro h
      rw [List.all_cons] at h
      obtain ⟨h1, h2⟩ := Bool.and_eq_true_iff.mp h
      cases hk : dictGet row k with
      | none => rw [hk] at h1; simp at h1
      | some v =>
          obtain ⟨rec, hrec⟩ := ih h2
          exact ⟨(k, v) :: rec, by simp [buildRecordAux, hk, hrec]⟩

/-- buildUserRecord raises a `KeyError` on an incomplete row. -/
theorem buildUserRecord_error_of_incomplete (row : Row)
    (h : rowComplete row = false) :
    ∃ e, buildUserRecord row = Except.error e :=
  buildRecordAux_error row requiredColumns h

/-- buildUserRecord succeeds on a complete row. -/
theorem buildUserRecord_ok_of_complete (row : Row)
    (h : rowComplete row = true) :
    ∃ rec, buildUserRecord row = Except.ok rec :=
  buildRecordAux_ok row requiredColumns h

/-- create_users_from_csv with successful authentication builds the
client and runs the row loop from call counter 0. -/
theorem create_users_eq (baseUrl : String) (authHeaders : Headers)
    (transport : Nat → TransportOutcome) (rows : List Row) :
    create_users_from_csv baseUrl (Except.ok authHeaders) transport rows =
      (Except.ok (processRows (importClient baseUrl authHeaders) transport 0 rows).1,
       (processRows (importClient baseUrl authHeaders) transport 0 rows).2) := rfl

/-- processRows reports exactly one line per row. -/
theorem processRows_reports_length (sf : Client)
    (transport : Nat → TransportOutcome) :
    ∀ (rows : List Row) (n : Nat),
      (processRows sf transport n rows).1.length = rows.length := by
  intro rows
  induction rows with
  | nil => intro n; rfl
  | cons row rest ih =>
      intro n
      cases h : buildUserRecord row with
      | error e => simp [processRows, h, ih n]
      | ok rec => simp [processRows, h, ih (n + 1)]

/-- processRows on a batch of complete rows: one success line per row and
one POST of the serialized record per row, in file order. -/
theorem processRows_all_complete (sf : Client)
    (transport : Nat → TransportOutcome) :
    ∀ (rows : List Row) (n : Nat), (∀ row ∈ rows, rowComplete row = true) →
      processRows sf transport n rows =
        (successReports transport n rows, rows.map (expectedCreateRequest sf)) := by
  intro rows
  induction rows with
  | nil => intro n h; rfl
  | cons row rest ih =>
      intro n h
      obtain ⟨rec, hrec⟩ :=
        buildUserRecord_ok_of_complete row (h row (List.mem_cons_self row rest))
      have hrest : ∀ r ∈ rest, rowComplete r = true :=
        fun r hr => h r (List.mem_cons_of_mem row hr)
      have hreq : builtRequest sf "POST" none DEFAULT_TIMEOUT_SECONDS
          ⟨none, some (recordJson rec)⟩ = expectedCreateRequest sf row := by
        simp [builtRequest, expectedCreateRequest, hrec, mergeDict, Except.toOption]
      simp [processRows, hrec, Client.post, send_request_eq,
        ih (n + 1) hrest, successReports, List.map_cons, hreq]

/-- successReports has one line per row. -/
theorem successReports_length (transport : Nat → TransportOutcome) :
    ∀ (rows : List Row) (n : Nat),
      (successReports transport n rows).length = rows.length := by
  intro rows
  induction rows with
  | nil => intro n; rfl
  | cons row rest ih => intro n; simp [successReports, ih (n + 1)]

/-- successReports holds no failure line. -/
theorem successReports_no_failure (transport : Nat → TransportOutcome) :
    ∀ (rows : List Row) (n : Nat) (rep : RowReport),
      rep ∈ successReports transport n rows → RowReport.isFailure rep = false := by
  intro rows
  induction rows with
  | nil => intro n rep h; simp [successReports] at h
  | cons row rest ih =>
      intro n rep h
      rw [successReports, List.mem_cons] at h
      cases h with
      | inl h => rw [h]; rfl
      | inr h => exact ih (n + 1) rep h

/-- successReports line i carries row i's username and the result of the
(n+i)-th transport outcome. -/
theorem successReports_get (transport : Nat → TransportOutcome) :
    ∀ (rows : List Row) (n i : Nat) (row : Row), rows[i]? = some row →
      (successReports transport n rows)[i]? =
        some (RowReport.success (rowGetD row "Username" "")
          (transportResult (transport (n + i)))) := by
  intro rows
  induction rows with
  | nil => intro n i row h; simp at h
  | cons r rest ih =>
      intro n i row hrow
      cases i with
      | zero =>
          rw [List.getElem?_cons_zero] at hrow
          obtain rfl : r = row := Option.some.inj hrow
          simp [successReports]
      | succ j =>
          rw [List.getElem?_cons_succ] at hrow
          have := ih (n + 1) j row hrow
          rw [successReports, List.getElem?_cons_succ, this]
          have harith : n + 1 + j = n + (j + 1) := by omega
          rw [harith]

/-- processRows report line i for an incomplete row i is the failure line
with the row's username or the `'No Username'` placeholder. -/
theorem processRows_get_incomplete (sf : Client)
    (transport : Nat → TransportOutcome) :
    ∀ (rows : List Row) (n i : Nat) (row : Row), rows[i]? = some row →
      rowComplete row = false →
      ∃ e, (processRows sf transport n rows).1[i]? =
        some (RowReport.failure (rowGetD row "Username" "No Username") e) := by
  intro rows
  induction rows with
  | nil => intro n i row h; simp at h
  | cons r rest ih =>
      intro n i row hrow hmiss
      cases i with
      | zero =>
          rw [List.getElem?_cons_zero, Option.some_inj] at hrow
          rw [← hrow] at hmiss
          obtain ⟨e, he⟩ := buildUserRecord_error_of_incomplete r hmiss
          refine ⟨e, ?_⟩
          rw [← hrow]
          simp [processRows, he]
      | succ j =>
          rw [List.getElem?_cons_succ] at hrow
          cases hb : buildUserRecord r with
          | error e2 =>
              obtain ⟨e, he⟩ := ih n j row hrow hmiss
              exact ⟨e, by simp [processRows, hb, he]⟩
          | ok rec =>
              obtain ⟨e, he⟩ := ih (n + 1) j row hrow hmiss
              exact ⟨e, by simp [processRows, hb, he]⟩

/-- processRows report line i for a complete row i is a success line with
the row's username, whatever the response was. -/
theorem processRows_get_complete (sf : Client)
    (transport : Nat → TransportOutcome) :
    ∀ (rows : List Row) (n i : Nat) (row : Row), rows[i]? = some row →
      rowComplete row = true →
      ∃ resp, (processRows sf transport n rows).1[i]? =
        some (RowReport.success (rowGetD row "Username" "") resp) := by
  intro rows
  induction rows with
  | nil => intro n i row h; simp at h
  | cons r rest ih =>
      intro n i row hrow hcomp
      cases i with
      | zero =>
          rw [List.getElem?_cons_zero, Option.some_inj] at hrow
          rw [← hrow] at hcomp
          obtain ⟨rec, hrec⟩ := buildUserRecord_ok_of_complete r hcomp
          refine ⟨(sf.post (fun _ => transport n) none DEFAULT_TIMEOUT_SECONDS
            ⟨none, some (recordJson rec)⟩).2.1, ?_⟩
          rw [← hrow]
          simp [processRows, hrec]
      | succ j =>
          rw [List.getElem?_cons_succ] at hrow
          cases hb : buildUserRecord r with
          | error e2 =>
              obtain ⟨resp, he⟩ := ih n j row hrow hcomp
              exact ⟨resp, by simp [processRows, hb, he]⟩
          | ok rec =>
              obtain ⟨resp, he⟩ := ih (n + 1) j row hrow hcomp
              exact ⟨resp, by simp [processRows, hb, he]⟩

/-! Claim theorems. -/

/-- Claim C3: `send_request` never propagates an exception: a
transport-level failure (network error, DNS failure, timeout — any
`RequestException`) and an unexpected exception both yield the synthetic
status-500 response, an HTTP response with a 4xx/5xx status yields the
synthetic status-500 response, and a 2xx response is returned unchanged. -/
theorem send_request_never_throws_contract (c : Client) (transport : Transport)
    (method : String) (headers : Option Headers) (timeout : Rat)
    (d : Option String) :
    ((∃ s, transport (builtRequest c method headers timeout ⟨none, d⟩) =
        TransportOutcome.requestException s) →
      (c.send_request transport method headers timeout ⟨none, d⟩).2.1 =
        errorResponse) ∧
    ((∃ s, transport (builtRequest c method headers timeout ⟨none, d⟩) =
        TransportOutcome.otherException s) →
      (c.send_request transport method headers timeout ⟨none, d⟩).2.1 =
        errorResponse) ∧
    (∀ r, transport (builtRequest c method headers timeout ⟨none, d⟩) =
        TransportOutcome.success r → 400 ≤ r.status_code → r.status_code < 600 →
      (c.send_request transport method headers timeout ⟨none, d⟩).2.1 =
        errorResponse) ∧
    (∀ r, transport (builtRequest c method headers timeout ⟨none, d⟩) =
        TransportOutcome.success r → 200 ≤ r.status_code → r.status_code < 300 →
      (c.send_request transport method headers timeout ⟨none, d⟩).2.1 = r) := by
  refine ⟨?_, ?_, ?_, ?_⟩
  · rintro ⟨s, hs⟩
    rw [send_request_eq, hs]
    rfl
  · rintro ⟨s, hs⟩
    rw [send_request_eq, hs]
    rfl
  · intro r hr h4 h6
    rw [send_request_eq, hr]
    have hcond : 400 ≤ r.status_code ∧ r.status_code < 600 := ⟨h4, h6⟩
    simp [transportResult, hcond]
  · intro r hr h2 h3
    rw [send_request_eq, hr]
    have hcond : ¬(400 ≤ r.status_code ∧ r.status_code < 600) := by omega
    simp [transportResult, hcond]

/-- Witness for the send_request contract at concrete inputs: a network
failure yields the synthetic 500, a 201 response comes back unchanged. -/
theorem send_request_never_throws_contract_witness :
    ((importClient sampleBaseUrl sampleAuth).send_request
        (fun _ => TransportOutcome.requestException "ConnectionError") "GET" none
        DEFAULT_TIMEOUT_SECONDS ⟨none, none⟩).2.1 = errorResponse ∧
    ((importClient sampleBaseUrl sampleAuth).send_request
        (fun _ => TransportOutcome.success okResponse) "GET" none
        DEFAULT_TIMEOUT_SECONDS ⟨none, none⟩).2.1 = okResponse :=
  ⟨(send_request_never_throws_contract (importClient sampleBaseUrl sampleAuth)
      (fun _ => TransportOutcome.requestException "ConnectionError") "GET" none
      DEFAULT_TIMEOUT_SECONDS none).1 ⟨"ConnectionError", rfl⟩,
   (send_request_never_throws_contract (importClient sampleBaseUrl sampleAuth)
      (fun _ => TransportOutcome.success okResponse) "GET" none
      DEFAULT_TIMEOUT_SECONDS none).2.2.2 okResponse rfl (by decide) (by decide)⟩

/-- Claim C10: a completed HTTP response with status below 400 — e.g. a
304 — is returned to the caller unchanged; the conversion to the synthetic
500 happens only when the status is 400 or greater. -/
theorem send_request_below_400_unchanged (c : Client) (transport : Transport)
    (method : String) (headers : Option Headers) (timeout : Rat)
    (d : Option String) :
    (∀ r, transport (builtRequest c method headers timeout ⟨none, d⟩) =
        TransportOutcome.success r → r.status_code < 400 →
      (c.send_request transport method headers timeout ⟨none, d⟩).2.1 = r) ∧
    (∀ r, transport (builtRequest c method headers timeout ⟨none, d⟩) =
        TransportOutcome.success r →
      (c.send_request transport method headers timeout ⟨none, d⟩).2.1 ≠ r →
      400 ≤ r.status_code) := by
  constructor
  · intro r hr hlt
    rw [send_request_eq, hr]
    have hcond : ¬(400 ≤ r.status_code ∧ r.status_code < 600) := by omega
    simp [transportResult, hcond]
  · intro r hr hne
    by_contra hlt
    push_neg at hlt
    apply hne
    rw [send_request_eq, hr]
    have hcond : ¬(400 ≤ r.status_code ∧ r.status_code < 600) := by omega
    simp [transportResult, hcond]

/-- Witness: a 304 response is returned unchanged. -/
theorem send_request_below_400_unchanged_witness :
    ((importClient sampleBaseUrl sampleAuth).send_request
        (fun _ => TransportOutcome.success notModifiedResponse) "GET" none
        DEFAULT_TIMEOUT_SECONDS ⟨none, none⟩).2.1 = notModifiedResponse :=
  (send_request_below_400_unchanged (importClient sampleBaseUrl sampleAuth)
      (fun _ => TransportOutcome.success notModifiedResponse) "GET" none
      DEFAULT_TIMEOUT_SECONDS none).1 notModifiedResponse rfl (by decide)

/-- Claim C9: after construction the client instance is read-only: every
call to `send_request`, `get`, `post`, `patch` or `composite_request`
leaves its `url` and `base_headers` attributes unchanged. -/
theorem client_read_only_after_construction (c : Client)
    (baseUrl method : String) (transport : Transport)
    (headers : Option Headers) (timeout : Rat) (kwargs : Kwargs)
    (composite_data : PyVal) :
    (c.send_request transport method headers timeout kwargs).1 = c ∧
    (c.get transport headers timeout kwargs).1 = c ∧
    (c.post transport headers timeout kwargs).1 = c ∧
    (c.patch transport headers timeout kwargs).1 = c ∧
    (c.composite_request baseUrl transport composite_data).1 = c :=
  ⟨send_request_fst c transport method headers timeout kwargs,
   send_request_fst c transport "GET" headers timeout kwargs,
   send_request_fst c transport "POST" headers timeout kwargs,
   send_request_fst c transport "PATCH" headers timeout kwargs,
   rfl⟩

/-- Claim C6: an authentication failure at client construction aborts the
whole batch: the exception propagates out of the importer, no row is
reported and no HTTP call is made. -/
theorem auth_failure_aborts_batch (baseUrl e : String)
    (transport : Nat → TransportOutcome) (rows : List Row) :
    create_users_from_csv baseUrl (Except.error e) transport rows =
      (Except.error e, []) := rfl

/-- Claim C7: with environment "prod" and an answer whose lowercase form
is neither "yes" nor "y", `main` exits with status 1 without invoking the
importer; with an affirmative answer, or outside "prod", the importer is
invoked. -/
theorem main_prod_confirmation (env answer : String) :
    (env = "prod" → pyLower answer ≠ "yes" → pyLower answer ≠ "y" →
      main env answer = MainResult.exited 1) ∧
    ((pyLower answer = "yes" ∨ pyLower answer = "y") →
      main env answer = MainResult.ranImporter "src/files/ユーザー作成シート.csv") ∧
    (env ≠ "prod" →
      main env answer = MainResult.ranImporter "src/files/ユーザー作成シート.csv") := by
  refine ⟨?_, ?_, ?_⟩
  · intro he h1 h2
    simp [main, he, h1, h2]
  · intro h
    by_cases hp : env = "prod" <;> simp [main, hp, h]
  · intro h
    simp [main, h]

/-- Witness: in "prod", the answer "No" exits with status 1. -/
theorem main_prod_confirmation_witness :
    main "prod" "No" = MainResult.exited 1 :=
  (main_prod_confirmation "prod" "No").1 rfl (by decide) (by decide)

/-- Claim C8, counterexample: on a response whose body fails to decode,
`parse_json_body`'s fallback message is "response.json() failed", not the
claimed mapping with message "decode failed". -/
theorem parse_json_body_message_counterexample :
    parse_json_body ⟨200, none, "oops"⟩ ≠
      PyVal.vDict [("message", PyVal.vStr "decode failed"),
                   ("response", PyVal.vStr "oops")] := by
  simp [parse_json_body]

/-- Claim C8, amended: on a decode failure `parse_json_body` returns the
fallback mapping with message "response.json() failed" and the raw text;
on a successful decode it returns the decoded value. -/
theorem parse_json_body_contract (r : HttpResponse) :
    (r.jsonBody = none →
      parse_json_body r =
        PyVal.vDict [("message", PyVal.vStr "response.json() failed"),
                     ("response", PyVal.vStr r.text)]) ∧
    (∀ v, r.jsonBody = some v → parse_json_body r = v) := by
  constructor
  · intro h
    simp [parse_json_body, h]
  · intro v h
    simp [parse_json_body, h]

/-- Witness: the fallback mapping on a concrete non-JSON body. -/
theorem parse_json_body_contract_witness :
    parse_json_body ⟨200, none, "<html>error</html>"⟩ =
      PyVal.vDict [("message", PyVal.vStr "response.json() failed"),
                   ("response", PyVal.vStr "<html>error</html>")] :=
  (parse_json_body_contract ⟨200, none, "<html>error</html>"⟩).1 rfl

/-- Claim C2 (code bug): `composite_request` on `\x7b"a": 1\x7d` makes no
HTTP call at all: the `url=` it puts into `**kwargs` duplicates the
explicit `url=self.url` keyword of `requests.request`, raising
`TypeError`, which the blanket `except` turns into the synthetic 500
response — the composite endpoint is never targeted, for any client.  The
body it would have sent serializes to `\x7b"a": 1\x7d`, 8 bytes. -/
theorem composite_request_makes_no_call (c : Client) (baseUrl : String)
    (transport : Transport) :
    c.composite_request baseUrl transport (PyVal.vDict [("a", PyVal.vInt 1)]) =
      (c, errorResponse, none) ∧
    jsonDumps (PyVal.vDict [("a", PyVal.vInt 1)]) = "\x7b\"a\": 1\x7d" ∧
    (jsonDumps (PyVal.vDict [("a", PyVal.vInt 1)])).length = 8 :=
  ⟨rfl, rfl, rfl⟩

/-- Claim C4: for a CSV whose rows all carry every required column, the
importer issues exactly one create (POST) call per row, in file order:
the batch's request list is exactly the row list mapped to its expected
create request. -/
theorem importer_one_post_per_row_in_order (baseUrl : String)
    (authHeaders : Headers) (transport : Nat → TransportOutcome)
    (rows : List Row) (hrows : ∀ row ∈ rows, rowComplete row = true) :
    ∃ reports,
      create_users_from_csv baseUrl (Except.ok authHeaders) transport rows =
        (Except.ok reports,
         rows.map (expectedCreateRequest (importClient baseUrl authHeaders))) ∧
      reports.length = rows.length ∧
      ∀ req ∈ rows.map (expectedCreateRequest (importClient baseUrl authHeaders)),
        req.method = "POST" := by
  refine ⟨successReports transport 0 rows, ?_, ?_, ?_⟩
  · rw [create_users_eq,
      processRows_all_complete (importClient baseUrl authHeaders) transport rows 0 hrows]
  · exact successReports_length transport rows 0
  · intro req hreq
    rw [List.mem_map] at hreq
    obtain ⟨row, _, rfl⟩ := hreq
    rfl

/-- Witness: a concrete two-row batch issues exactly its two POSTs in
file order. -/
theorem importer_one_post_per_row_in_order_witness :
    (∀ row ∈ [sampleRow1, sampleRow2], rowComplete row = true) ∧
    (∃ reports,
      create_users_from_csv sampleBaseUrl (Except.ok sampleAuth) okTransport
          [sampleRow1, sampleRow2] =
        (Except.ok reports,
         [sampleRow1, sampleRow2].map
           (expectedCreateRequest (importClient sampleBaseUrl sampleAuth))) ∧
      reports.length = [sampleRow1, sampleRow2].length ∧
      ∀ req ∈ [sampleRow1, sampleRow2].map
          (expectedCreateRequest (importClient sampleBaseUrl sampleAuth)),
        req.method = "POST") :=
  ⟨by decide,
   importer_one_post_per_row_in_order sampleBaseUrl sampleAuth okTransport
     [sampleRow1, sampleRow2] (by decide)⟩

/-- Claim C5: a row missing a required column yields the failure line
naming the row's username (or the `'No Username'` placeholder when the
Username column itself is missing), the batch reports one line per row —
it never aborts — and every complete row still gets its line. -/
theorem importer_missing_column_row_failure (baseUrl : String)
    (authHeaders : Headers) (transport : Nat → TransportOutcome)
    (rows : List Row) (i : Nat) (row : Row)
    (hrow : rows[i]? = some row) (hmiss : rowComplete row = false) :
    ∃ reports reqs,
      create_users_from_csv baseUrl (Except.ok authHeaders) transport rows =
        (Except.ok reports, reqs) ∧
      reports.length = rows.length ∧
      (∃ e, reports[i]? =
        some (RowReport.failure (rowGetD row "Username" "No Username") e)) ∧
      (∀ (j : Nat) (rowj : Row), rows[j]? = some rowj → rowComplete rowj = true →
        ∃ resp, reports[j]? =
          some (RowReport.success (rowGetD rowj "Username" "") resp)) := by
  refine ⟨(processRows (importClient baseUrl authHeaders) transport 0 rows).1,
          (processRows (importClient baseUrl authHeaders) transport 0 rows).2,
          create_users_eq baseUrl authHeaders transport rows,
          processRows_reports_length (importClient baseUrl authHeaders) transport rows 0,
          processRows_get_incomplete (importClient baseUrl authHeaders) transport
            rows 0 i row hrow hmiss, ?_⟩
  intro j rowj hj hcomp
  exact processRows_get_complete (importClient baseUrl authHeaders) transport
    rows 0 j rowj hj hcomp

/-- Witness: a batch whose first row misses `LastName` reports the
failure line for row 0 with its username, processes both rows, and still
gives the complete second row its line. -/
theorem importer_missing_column_row_failure_witness :
    ([sampleIncompleteRow, sampleRow1][0]? = some sampleIncompleteRow) ∧
    rowComplete sampleIncompleteRow = false ∧
    (∃ reports reqs,
      create_users_from_csv sampleBaseUrl (Except.ok sampleAuth) okTransport
          [sampleIncompleteRow, sampleRow1] =
        (Except.ok reports, reqs) ∧
      reports.length = [sampleIncompleteRow, sampleRow1].length ∧
      (∃ e, reports[0]? =
        some (RowReport.failure
          (rowGetD sampleIncompleteRow "Username" "No Username") e)) ∧
      (∀ (j : Nat) (rowj : Row), [sampleIncompleteRow, sampleRow1][j]? = some rowj →
        rowComplete rowj = true →
        ∃ resp, reports[j]? =
          some (RowReport.success (rowGetD rowj "Username" "") resp))) :=
  ⟨rfl, by decide,
   importer_missing_column_row_failure sampleBaseUrl sampleAuth okTransport
     [sampleIncompleteRow, sampleRow1] 0 sampleIncompleteRow rfl (by decide)⟩

/-- Claim C1, counterexample: with the first row's create call answered by
a 4xx response (surfaced by the REST client as the synthetic status-500
response), the importer prints the success line for that row — it reports
no failure for any row, so the claim that the row is reported as a
failure is false on this batch. -/
theorem importer_api_error_counterexample :
    (create_users_from_csv sampleBaseUrl (Except.ok sampleAuth)
        failFirstTransport [sampleRow1, sampleRow2]).1 =
      Except.ok
        [RowReport.success "taro@example.com" errorResponse,
         RowReport.success "hanako@example.com" okResponse] ∧
    RowReport.isFailure
      (RowReport.success "taro@example.com" errorResponse) = false ∧
    errorResponse.status_code = 500 :=
  ⟨rfl, rfl, rfl⟩

/-- Claim C1, amended: for a batch of complete rows where one row's create
call gets a non-2xx (4xx/5xx) response, the importer does not report that
row as a failure: the row is reported through the success line carrying
the synthetic status-500 response, no failure line is printed for any
row, and every remaining row is still processed — one line and one call
per row. -/
theorem importer_api_error_in_success_line (baseUrl : String)
    (authHeaders : Headers) (transport : Nat → TransportOutcome)
    (rows : List Row) (i : Nat) (row : Row) (rbad : HttpResponse)
    (hrows : ∀ r ∈ rows, rowComplete r = true)
    (hrow : rows[i]? = some row)
    (hbad : transport i = TransportOutcome.success rbad)
    (h400 : 400 ≤ rbad.status_code) (h600 : rbad.status_code < 600) :
    ∃ reports reqs,
      create_users_from_csv baseUrl (Except.ok authHeaders) transport rows =
        (Except.ok reports, reqs) ∧
      reports.length = rows.length ∧
      reqs.length = rows.length ∧
      reports[i]? =
        some (RowReport.success (rowGetD row "Username" "") errorResponse) ∧
      (∀ rep ∈ reports, RowReport.isFailure rep = false) := by
  refine ⟨successReports transport 0 rows,
          rows.map (expectedCreateRequest (importClient baseUrl authHeaders)),
          ?_, ?_, ?_, ?_, ?_⟩
  · rw [create_users_eq,
      processRows_all_complete (importClient baseUrl authHeaders) transport rows 0 hrows]
  · exact successReports_length transport rows 0
  · exact List.length_map rows (expectedCreateRequest (importClient baseUrl authHeaders))
  · rw [successReports_get transport rows 0 i row hrow, Nat.zero_add, hbad]
    have hcond : 400 ≤ rbad.status_code ∧ rbad.status_code < 600 := ⟨h400, h600⟩
    simp [transportResult, hcond]
  · intro rep hrep
    exact successReports_no_failure transport rows 0 rep hrep

/-- Witness: the amended behavior on the concrete two-row batch whose
first call gets the 400 response. -/
theorem importer_api_error_in_success_line_witness :
    (∀ r ∈ [sampleRow1, sampleRow2], rowComplete r = true) ∧
    ([sampleRow1, sampleRow2][0]? = some sampleRow1) ∧
    (failFirstTransport 0 = TransportOutcome.success badResponse) ∧
    400 ≤ badResponse.status_code ∧ badResponse.status_code < 600 ∧
    (∃ reports reqs,
      create_users_from_csv sampleBaseUrl (Except.ok sampleAuth)
          failFirstTransport [sampleRow1, sampleRow2] =
        (Except.ok reports, reqs) ∧
      reports.length = [sampleRow1, sampleRow2].length ∧
      reqs.length = [sampleRow1, sampleRow2].length ∧
      reports[0]? =
        some (RowReport.success (rowGetD sampleRow1 "Username" "") errorResponse) ∧
      (∀ rep ∈ reports, RowReport.isFailure rep = false)) :=
  ⟨by decide, rfl, rfl, by decide, by decide,
   importer_api_error_in_success_line sampleBaseUrl sampleAuth failFirstTransport
     [sampleRow1, sampleRow2] 0 sampleRow1 badResponse (by decide) rfl rfl
     (by decide) (by decide)⟩

end CreateSfUser
